import Mathlib

/-!
Verification of the shared-expense settlement subsystem and the budget
threshold-alerting state machine of the expensemanager repository
(`apps/shared_expenses/models.py`, `apps/shared_expenses/signals.py`,
`apps/shared_expenses/serializers.py`, `apps/budgets/models.py`).

Currency amounts are modelled in integer cents (`ℤ`): every two-decimal
`Decimal` value is an integer number of cents, and `Decimal` addition,
subtraction and comparison on such values are exact, so they map to the
corresponding exact `ℤ` operations.  The one place the source divides
(`create_equal_splits`) is modelled with the round-half-even quantization
that the two-decimal `DecimalField` applies when the row is saved.
Ratio comparisons (budget utilization) are modelled over `ℚ`, which agrees
with 28-significant-digit `Decimal` division on all representable inputs
because the exact rational values involved are never within the rounding
error of a threshold.
-/

namespace ExpenseManager

/-- `SettlementStatus` choices from `apps/shared_expenses/models.py`. -/
inductive SettlementStatus where
  | PENDING
  | PARTIALLY_PAID
  | SETTLED
  | CANCELLED
deriving DecidableEq, Repr

/-- The fields of `Debt` that its methods read or write: `amount` and
`settled_amount` in cents, `status`, and the `settled_at` timestamp
(modelled as an abstract `ℕ` clock value, `none` when unset). -/
structure Debt where
  amount : ℤ
  settled_amount : ℤ
  status : SettlementStatus
  settled_at : Option ℕ
deriving DecidableEq, Repr

/-- `Debt.add_payment(amount, notes)` from `apps/shared_expenses/models.py`:
adds `amount` to `settled_amount`; if the result reaches `amount` the debt
becomes `SETTLED`, `settled_at` is stamped and `settled_amount` is capped at
`amount`; otherwise if the result is positive the status becomes
`PARTIALLY_PAID`; otherwise only `settled_amount` changes.  A `DebtPayment`
row carrying the raw call amount is always created; the method contains no
validation and no status precondition.  Returns the updated debt and the
amount recorded on the new `DebtPayment` row. -/
def add_payment (d : Debt) (amount : ℤ) (now : ℕ) : Debt × ℤ :=
  let s := d.settled_amount + amount
  let d1 :=
    if d.amount ≤ s then
      { d with status := SettlementStatus.SETTLED
               settled_at := some now
               settled_amount := d.amount }
    else if 0 < s then
      { d with status := SettlementStatus.PARTIALLY_PAID
               settled_amount := s }
    else
      { d with settled_amount := s }
  (d1, amount)

/-- A finite sequence of `add_payment` calls on one debt, returning the final
debt together with the amounts of the `DebtPayment` rows created, in order. -/
def apply_payments : Debt → List ℤ → Debt × List ℤ
  | d, [] => (d, [])
  | d, p :: ps =>
    let r := add_payment d p 0
    let rest := apply_payments r.1 ps
    (rest.1, r.2 :: rest.2)

/-- The pure-function status rule of the spec: `0 → PENDING`,
`0 < x < amount → PARTIALLY_PAID`, `x = amount → SETTLED`. -/
def pure_status (settled amount : ℤ) : SettlementStatus :=
  if settled = 0 then SettlementStatus.PENDING
  else if settled < amount then SettlementStatus.PARTIALLY_PAID
  else SettlementStatus.SETTLED

/-- Round a rational to the nearest integer, ties to even — the
`ROUND_HALF_EVEN` rounding that `Decimal` quantization uses. -/
def roundHalfEven (q : ℚ) : ℤ :=
  let f : ℤ := ⌊q⌋
  let r : ℚ := q - (f : ℚ)
  if r < 1/2 then f
  else if 1/2 < r then f + 1
  else if f % 2 = 0 then f else f + 1

/-- The amount stored on each split row by `create_equal_splits`:
`self.expense.amount / len(members)` (Decimal division), quantized to two
decimal places (half-even) by the `DecimalField` when the row is saved.
`total` is the expense amount in cents; the result is in cents. -/
def amount_per_person (total : ℤ) (n : ℕ) : ℤ :=
  roundHalfEven ((total : ℚ) / (n : ℚ))

/-- `SharedExpense.create_equal_splits(members)` from
`apps/shared_expenses/models.py`: if `members` is empty nothing is created;
otherwise one split row per member is created, each carrying the same
`amount_per_person` value.  Returns the `(member, amount)` rows created. -/
def create_equal_splits (total : ℤ) (members : List ℕ) : List (ℕ × ℤ) :=
  if members.isEmpty then []
  else members.map (fun m => (m, amount_per_person total members.length))

/-- `BudgetStatus` choices from `apps/budgets/models.py`. -/
inductive BudgetStatus where
  | ACTIVE
  | INACTIVE
  | EXCEEDED
  | COMPLETED
deriving DecidableEq, Repr

/-- The two alert types `check_and_send_alerts` can emit
(the `80_PERCENT` and `EXCEEDED` strings passed to `apps/budgets/services.py`). -/
inductive AlertType where
  | EIGHTY_PERCENT
  | EXCEEDED
deriving DecidableEq, Repr

/-- The fields of `Budget` that `check_and_send_alerts` and `reset_alerts`
read or write: `amount` in cents, the two threshold-enabled flags, the two
already-alerted flags and the status. -/
structure Budget where
  amount : ℤ
  alert_threshold_80 : Bool
  alert_threshold_100 : Bool
  alerted_at_80 : Bool
  alerted_at_100 : Bool
  status : BudgetStatus
deriving DecidableEq, Repr

/-- `Budget.utilization_percentage`: `(spent_amount / amount) * 100` when
`amount > 0`, otherwise `0.00`.  `spent` is the freshly recomputed
`spent_amount` in cents, passed in by the caller. -/
def utilization_percentage (b : Budget) (spent : ℤ) : ℚ :=
  if 0 < b.amount then ((spent : ℚ) / (b.amount : ℚ)) * 100 else 0

/-- `Budget.check_and_send_alerts` from `apps/budgets/models.py`: computes
the utilization once, then (1) if the 80% threshold is enabled, not yet
alerted, and `80 ≤ utilization < 100`, emits an `80_PERCENT` alert and sets
`alerted_at_80`; (2) if the 100% threshold is enabled, not yet alerted, and
`utilization ≥ 100`, emits an `EXCEEDED` alert, sets `alerted_at_100` and
moves the status to `EXCEEDED`.  Returns the updated budget and the list of
alerts emitted by this call. -/
def check_and_send_alerts (b : Budget) (spent : ℤ) : Budget × List AlertType :=
  let u := utilization_percentage b spent
  let r1 :=
    if b.alert_threshold_80 = true ∧ b.alerted_at_80 = false ∧ 80 ≤ u ∧ u < 100 then
      ({ b with alerted_at_80 := true }, [AlertType.EIGHTY_PERCENT])
    else (b, [])
  let r2 :=
    if r1.1.alert_threshold_100 = true ∧ r1.1.alerted_at_100 = false ∧ 100 ≤ u then
      ({ r1.1 with alerted_at_100 := true, status := BudgetStatus.EXCEEDED },
       [AlertType.EXCEEDED])
    else (r1.1, [])
  (r2.1, r1.2 ++ r2.2)

/-- `Budget.reset_alerts`: clears both alerted flags and nothing else. -/
def reset_alerts (b : Budget) : Budget :=
  { b with alerted_at_80 := false, alerted_at_100 := false }

/-- A sequence of `check_and_send_alerts` evaluations, one per (freshly
recomputed) spent value, collecting every alert emitted. -/
def run_checks : Budget → List ℤ → Budget × List AlertType
  | b, [] => (b, [])
  | b, s :: ss =>
    let r := check_and_send_alerts b s
    let rest := run_checks r.1 ss
    (rest.1, r.2 ++ rest.2)

/-- Number of alerts of a type a budget may still emit: 1 if the
corresponding alerted flag is clear, 0 once it is set. -/
def alerts_left (alerted : Bool) : ℕ :=
  if alerted then 0 else 1

/-- The fields of `SharedExpenseSplit` that the `create_debt_on_split`
signal reads: the row id, the participant (`user`), the amount in cents and
the `is_settled` flag. -/
structure SplitRec where
  id : ℕ
  user : ℕ
  amount : ℤ
  is_settled : Bool
deriving DecidableEq, Repr

/-- A `Debt` row as created by the signal: the three `get_or_create` lookup
keys (`creditor`, `debtor`, `shared_expense_split`) and the `amount`
default. -/
structure DebtRow where
  creditor : ℕ
  debtor : ℕ
  split_id : ℕ
  amount : ℤ
deriving DecidableEq, Repr

/-- The `create_debt_on_split` `post_save` receiver from
`apps/shared_expenses/signals.py`: runs only when the split row was just
created (`created`) and is not settled; if the user of the split differs from
`paid_by` (the payer of the parent `SharedExpense`), performs
`Debt.objects.get_or_create` keyed on
`(creditor = paid_by, debtor = user, shared_expense_split = split)` with the
split amount as default — creating a row only when no row with those three
keys exists. -/
def create_debt_on_split (paid_by : ℕ) (debts : List DebtRow) (created : Bool)
    (sp : SplitRec) : List DebtRow :=
  if created = true ∧ sp.is_settled = false then
    if sp.user ≠ paid_by then
      if debts.any (fun d =>
          d.creditor == paid_by && d.debtor == sp.user && d.split_id == sp.id) then
        debts
      else
        debts ++ [⟨paid_by, sp.user, sp.id, sp.amount⟩]
    else debts
  else debts

/-- Debt derivation for a shared expense: the signal fires once per split
row at its creation, in order. -/
def derive_debts (paid_by : ℕ) (debts : List DebtRow) (splits : List SplitRec) :
    List DebtRow :=
  splits.foldl (fun acc sp => create_debt_on_split paid_by acc true sp) debts

/-- The fields of a `SharedExpense` row relevant to creation: the referenced
expense, the group and the payer.  `expense` is a plain `ForeignKey` (not a
`OneToOneField`), so the table carries no uniqueness constraint on it. -/
structure SharedExpenseRow where
  expense_id : ℕ
  group_id : ℕ
  paid_by : ℕ
deriving DecidableEq, Repr

/-- Creation of a `SharedExpense` through `SharedExpenseSerializer`
(`apps/shared_expenses/serializers.py`): the serializer declares no
`validate` method and no validators, and `SharedExpense` has no unique
constraint on `expense` and no payer-membership check, so the default
`ModelSerializer.create` persists the row unconditionally. -/
def create_shared_expense (rows : List SharedExpenseRow)
    (expense_id group_id paid_by : ℕ) : List SharedExpenseRow :=
  rows ++ [⟨expense_id, group_id, paid_by⟩]

/-- The database columns of a `SharedExpense` row that `get_balance_summary`
filters or joins on: row id, the referenced expense, group, payer and the
soft-delete flag.  The table has no `amount` column: on the model, `amount`
is a Python property delegating to `self.expense.amount`, and none of the
`BaseModel` or `SoftDeleteMixin` mixins declares one — the authoritative
amount lives on the related Expense row. -/
structure SERow where
  id : ℕ
  expense_id : ℕ
  group_id : ℕ
  paid_by : ℕ
  is_deleted : Bool
deriving DecidableEq, Repr

/-- The fields of a `SharedExpenseSplit` row that `get_balance_summary`
reads: the parent shared-expense id, the participant and the amount
(`SharedExpenseSplit` does declare an `amount` DecimalField). -/
structure SplitRow where
  shared_expense_id : ℕ
  user : ℕ
  amount : ℤ
deriving DecidableEq, Repr

/-- The two tables `get_balance_summary` queries. -/
structure DB where
  shared_expenses : List SERow
  splits : List SplitRow
deriving Repr

/-- The error an ORM query raises; `FieldError` carries the keyword the
query compiler could not resolve into a column. -/
inductive ORMError where
  | FieldError (keyword : String)
deriving DecidableEq, Repr

/-- The summable columns of the `SharedExpense` table, as the ORM query
compiler resolves a `Sum(keyword)` expression, with the value each takes on
a row.  The model declares no `DecimalField` at all — in particular
`amount` is a Python property, not a column — so every lookup fails. -/
def shared_expense_sum_column : String → Option (SERow → ℤ) :=
  fun _ => none

/-- The summable column of the `SharedExpenseSplit` table: its `amount`
DecimalField. -/
def split_sum_column : String → Option (SplitRow → ℤ) :=
  fun f => if f = "amount" then some SplitRow.amount else none

/-- `qs.aggregate(total=Sum(field))` over shared-expense rows, followed by
the `or Decimal(0.00)` fallback of the caller: the ORM resolves `field`
against the table columns before reading any row and raises `FieldError`
when it is not one; otherwise the column is summed (the `None` an empty
queryset yields becomes 0.00 through the fallback, like the empty sum). -/
def se_aggregate_sum (field : String) (rows : List SERow) :
    Except ORMError ℤ :=
  match shared_expense_sum_column field with
  | some v => Except.ok ((rows.map v).sum)
  | none => Except.error (ORMError.FieldError field)

/-- The same aggregate over split rows. -/
def split_aggregate_sum (field : String) (rows : List SplitRow) :
    Except ORMError ℤ :=
  match split_sum_column field with
  | some v => Except.ok ((rows.map v).sum)
  | none => Except.error (ORMError.FieldError field)

/-- `ExpenseGroup.get_balance_summary` from `apps/shared_expenses/models.py`
for group `g` and member list `members`: iterates the members; for each,
computes `paid` as `aggregate(total=Sum(amount))` over
`self.shared_expenses.filter(paid_by=member, is_deleted=False)` (the
related manager is already restricted to `group = self`), then `owed` as
`aggregate(total=Sum(amount))` over `SharedExpenseSplit.objects.filter(
shared_expense__group=self, user=member, shared_expense__is_deleted=False)`
(the join realized by matching the parent row), and enters
`(paid, owed, paid - owed)` for the member; an error raised by an aggregate
(the paid one is evaluated first in the loop body) propagates out of the
method. -/
def get_balance_summary (db : DB) (g : ℕ) :
    List ℕ → Except ORMError (List (ℕ × ℤ × ℤ × ℤ))
  | [] => Except.ok []
  | m :: rest =>
    match se_aggregate_sum "amount"
        (db.shared_expenses.filter (fun e =>
          e.group_id == g && e.paid_by == m && !e.is_deleted)) with
    | Except.error err => Except.error err
    | Except.ok paid =>
      match split_aggregate_sum "amount"
          (db.splits.filter (fun s =>
            s.user == m && db.shared_expenses.any (fun e =>
              e.id == s.shared_expense_id && (e.group_id == g && !e.is_deleted)))) with
      | Except.error err => Except.error err
      | Except.ok owed =>
        match get_balance_summary db g rest with
        | Except.error err => Except.error err
        | Except.ok tail => Except.ok ((m, paid, owed, paid - owed) :: tail)

/-- The fields of `SharedExpenseSplit` that `settle` and `unsettle` write:
the settled flag, the settlement timestamp (abstract clock, `none` when
unset) and the settlement notes. -/
structure SplitState where
  is_settled : Bool
  settled_at : Option ℕ
  settlement_notes : String
deriving DecidableEq, Repr

/-- `SharedExpenseSplit.settle(notes)`: sets `is_settled`, stamps
`settled_at` with the current time, and overwrites the notes only when
`notes` is non-empty. -/
def settle (s : SplitState) (now : ℕ) (notes : String) : SplitState :=
  { s with is_settled := true
           settled_at := some now
           settlement_notes := if notes ≠ "" then notes else s.settlement_notes }

/-- `SharedExpenseSplit.unsettle()`: clears `is_settled` and `settled_at`. -/
def unsettle (s : SplitState) : SplitState :=
  { s with is_settled := false, settled_at := none }

/-! Helper lemmas shared by several theorems. -/

/-- One `add_payment` call, characterized field by field: the recorded
payment carries the raw call amount, the debt amount is untouched,
`settled_amount` is clamped at `amount`, and the status follows the three
branches of the method. -/
theorem add_payment_fields (d : Debt) (p : ℤ) (now : ℕ) :
    ((add_payment d p now).2 = p)
    ∧ ((add_payment d p now).1.amount = d.amount)
    ∧ ((add_payment d p now).1.settled_amount
        = if d.amount ≤ d.settled_amount + p then d.amount else d.settled_amount + p)
    ∧ ((add_payment d p now).1.status
        = if d.amount ≤ d.settled_amount + p then SettlementStatus.SETTLED
          else if 0 < d.settled_amount + p then SettlementStatus.PARTIALLY_PAID
          else d.status)
    ∧ ((add_payment d p now).1.settled_at
        = if d.amount ≤ d.settled_amount + p then some now else d.settled_at) := by
  by_cases h1 : d.amount ≤ d.settled_amount + p
  · simp [add_payment, h1]
  · by_cases h2 : 0 < d.settled_amount + p <;> simp [add_payment, h1, h2]

theorem pure_status_zero (A : ℤ) : pure_status 0 A = SettlementStatus.PENDING := by
  unfold pure_status
  rw [if_pos rfl]

theorem pure_status_mid (x A : ℤ) (h0 : 0 < x) (h1 : x < A) :
    pure_status x A = SettlementStatus.PARTIALLY_PAID := by
  unfold pure_status
  rw [if_neg (by omega), if_pos h1]

theorem pure_status_full (A : ℤ) (hA : 0 < A) :
    pure_status A A = SettlementStatus.SETTLED := by
  unfold pure_status
  rw [if_neg (by omega), if_neg (by omega)]

/-! Theorems about the claims. -/

/-- C1 counterexample: splitting 100.00 among three members does not yield
the amounts [33.34, 33.33, 33.33] — every member gets 33.33 — and the
amounts do not sum to the expense amount (they sum to 99.99, not 100.00),
so no participant absorbs a remainder. -/
theorem C1_counterexample :
    ((create_equal_splits 10000 [0, 1, 2]).map Prod.snd ≠ [3334, 3333, 3333])
    ∧ ((create_equal_splits 10000 [0, 1, 2]).map Prod.snd = [3333, 3333, 3333])
    ∧ (((create_equal_splits 10000 [0, 1, 2]).map Prod.snd).sum = 9999)
    ∧ ((9999 : ℤ) ≠ 10000) := by
  refine ⟨?_, ?_, ?_, by norm_num⟩ <;>
    norm_num [create_equal_splits, amount_per_person, roundHalfEven]

/-- C1 amended: `create_equal_splits` gives every participant the same
amount — the expense amount divided by the member count, quantized to the
cent — with no remainder correction for any participant, so the amounts
need not sum to the expense amount; splitting 100.00 among three members
yields [33.33, 33.33, 33.33], which sums to 99.99. -/
theorem C1_equal_splits_amended (total : ℤ) (members : List ℕ) :
    ((create_equal_splits total members).map Prod.snd
      = members.map (fun _ => amount_per_person total members.length))
    ∧ ((create_equal_splits 10000 [0, 1, 2]).map Prod.snd = [3333, 3333, 3333])
    ∧ (((create_equal_splits 10000 [0, 1, 2]).map Prod.snd).sum = 9999) := by
  refine ⟨?_, ?_, ?_⟩
  · unfold create_equal_splits
    cases members with
    | nil => simp
    | cons m ms => simp [List.map_map, Function.comp_def]
  · norm_num [create_equal_splits, amount_per_person, roundHalfEven]
  · norm_num [create_equal_splits, amount_per_person, roundHalfEven]

/-- C3 counterexample: `add_payment` accepts a non-positive amount and
mutates the debt (settled_amount becomes -1.00) instead of raising
ValidationError and leaving it unchanged; and after a 150.00 debt receives
50.00 and 100.00, a third positive payment of 0.01 is accepted as well —
three DebtPayment rows exist afterwards, no error is raised. -/
theorem C3_counterexample :
    ((add_payment ⟨15000, 0, SettlementStatus.PENDING, none⟩ (-100) 0).1.settled_amount
        = -100)
    ∧ ((-100 : ℤ) ≠ 0)
    ∧ ((apply_payments ⟨15000, 0, SettlementStatus.PENDING, none⟩ [5000, 10000, 1]).2
        = [5000, 10000, 1])
    ∧ ((apply_payments ⟨15000, 0, SettlementStatus.PENDING, none⟩ [5000, 10000, 1]).1.settled_amount
        = 15000) := by
  refine ⟨by decide, by decide, by decide, by decide⟩

/-- C3 amended: `add_payment` performs no validation: every call — with a
non-positive amount or an amount exceeding the remaining balance — is
accepted and records a DebtPayment with the raw call amount, the overshoot
being clamped so settled_amount caps at amount; in particular after a
150.00 debt receives 50.00 then 100.00, a third payment of 0.01 succeeds,
leaves settled_amount at 150.00 and status SETTLED, and appends a third
DebtPayment row. -/
theorem C3_no_validation_amended (d : Debt) (p : ℤ) (now : ℕ) :
    ((add_payment d p now).2 = p)
    ∧ ((add_payment d p now).1.settled_amount
        = if d.amount ≤ d.settled_amount + p then d.amount else d.settled_amount + p)
    ∧ ((apply_payments ⟨15000, 0, SettlementStatus.PENDING, none⟩ [5000, 10000, 1]).1
        = ⟨15000, 15000, SettlementStatus.SETTLED, some 0⟩)
    ∧ ((apply_payments ⟨15000, 0, SettlementStatus.PENDING, none⟩ [5000, 10000, 1]).2
        = [5000, 10000, 1]) := by
  obtain ⟨h1, _, h3, _⟩ := add_payment_fields d p now
  exact ⟨h1, h3, by decide, by decide⟩

/-- C4 counterexample: `add_payment` on a CANCELLED debt of 100.00 with a
payment of 100.00 does not fail — it sets settled_amount to 100.00 and
moves the status to SETTLED, so CANCELLED is not terminal with respect to
payments. -/
theorem C4_counterexample :
    ((add_payment ⟨10000, 0, SettlementStatus.CANCELLED, none⟩ 10000 0).1.status
        = SettlementStatus.SETTLED)
    ∧ ((add_payment ⟨10000, 0, SettlementStatus.CANCELLED, none⟩ 10000 0).1.settled_amount
        = 10000)
    ∧ (SettlementStatus.SETTLED ≠ SettlementStatus.CANCELLED) := by
  refine ⟨by decide, by decide, by decide⟩

/-- C4 amended: `add_payment` on a CANCELLED debt is accepted like any
other call — it records the payment, sets settled_amount to the clamped
value `min amount (settled_amount + p)`, and recomputes the status
(SETTLED when the debt amount is reached, PARTIALLY_PAID when the new
settled amount is positive, CANCELLED kept otherwise). -/
theorem C4_cancelled_not_terminal_amended (d : Debt) (p : ℤ) (now : ℕ)
    (h : d.status = SettlementStatus.CANCELLED) :
    ((add_payment d p now).2 = p)
    ∧ ((add_payment d p now).1.settled_amount = min d.amount (d.settled_amount + p))
    ∧ ((add_payment d p now).1.status
        = if d.amount ≤ d.settled_amount + p then SettlementStatus.SETTLED
          else if 0 < d.settled_amount + p then SettlementStatus.PARTIALLY_PAID
          else SettlementStatus.CANCELLED) := by
  obtain ⟨h1, _, h3, h4, _⟩ := add_payment_fields d p now
  refine ⟨h1, ?_, by rw [h4, h]⟩
  rw [h3]
  split_ifs with hc <;> omega

/-- C4 witness: the amended statement at a concrete CANCELLED debt of
100.00 receiving a payment of 40.00. -/
theorem C4_witness :
    ((⟨10000, 0, SettlementStatus.CANCELLED, none⟩ : Debt).status
        = SettlementStatus.CANCELLED)
    ∧ (((add_payment ⟨10000, 0, SettlementStatus.CANCELLED, none⟩ 4000 0).2 = 4000)
       ∧ ((add_payment ⟨10000, 0, SettlementStatus.CANCELLED, none⟩ 4000 0).1.settled_amount
            = min (10000 : ℤ) (0 + 4000))
       ∧ ((add_payment ⟨10000, 0, SettlementStatus.CANCELLED, none⟩ 4000 0).1.status
            = if (10000 : ℤ) ≤ 0 + 4000 then SettlementStatus.SETTLED
              else if (0 : ℤ) < 0 + 4000 then SettlementStatus.PARTIALLY_PAID
              else SettlementStatus.CANCELLED)) :=
  ⟨rfl, C4_cancelled_not_terminal_amended ⟨10000, 0, SettlementStatus.CANCELLED, none⟩ 4000 0 rfl⟩

/-- C8 counterexample: with the group member set {5, 6}, a SharedExpense
for expense 1 already on file (paid by 5), creating a second SharedExpense
for the same expense 1 with payer 9 — who is not a member — succeeds, and
two SharedExpense rows then reference expense 1. -/
theorem C8_counterexample :
    (((create_shared_expense (create_shared_expense [] 1 1 5) 1 1 9).filter
        (fun r => r.expense_id == 1)).length = 2)
    ∧ ((9 : ℕ) ∉ [5, 6])
    ∧ ((2 : ℕ) ≠ 1) := by
  refine ⟨by decide, by decide, by decide⟩

/-- C8 amended: SharedExpense creation enforces nothing — neither payer
membership nor uniqueness per expense is checked, so every call appends a
row and the number of SharedExpense rows referencing a given expense grows
by one per call, breaking the one-to-one invariant. -/
theorem C8_no_uniqueness_amended (rows : List SharedExpenseRow)
    (e g p : ℕ) :
    ((create_shared_expense rows e g p).filter
        (fun r => r.expense_id == e)).length
      = ((rows.filter (fun r => r.expense_id == e)).length) + 1 := by
  simp [create_shared_expense, List.filter_append]

/-- C10 confirmed: `settle` sets is_settled and stamps a non-None
settled_at, and a subsequent `unsettle` restores is_settled to false and
settled_at to None, so for a split that starts unsettled the pair
(is_settled, settled_at) round-trips. -/
theorem C10_settle_roundtrip (s : SplitState) (now : ℕ) (notes : String)
    (h1 : s.is_settled = false) (h2 : s.settled_at = none) :
    ((settle s now notes).is_settled = true)
    ∧ ((settle s now notes).settled_at = some now)
    ∧ ((settle s now notes).settled_at ≠ none)
    ∧ ((unsettle (settle s now notes)).is_settled = s.is_settled)
    ∧ ((unsettle (settle s now notes)).settled_at = s.settled_at) := by
  refine ⟨rfl, rfl, by simp [settle], ?_, ?_⟩ <;> simp [settle, unsettle, h1, h2]

/-- C10 witness: the round trip at a concrete unsettled split. -/
theorem C10_witness :
    ((⟨false, none, ""⟩ : SplitState).is_settled = false)
    ∧ ((⟨false, none, ""⟩ : SplitState).settled_at = none)
    ∧ (((settle ⟨false, none, ""⟩ 5 "paid in cash").is_settled = true)
       ∧ ((settle ⟨false, none, ""⟩ 5 "paid in cash").settled_at = some 5)
       ∧ ((settle ⟨false, none, ""⟩ 5 "paid in cash").settled_at ≠ none)
       ∧ ((unsettle (settle ⟨false, none, ""⟩ 5 "paid in cash")).is_settled
            = (⟨false, none, ""⟩ : SplitState).is_settled)
       ∧ ((unsettle (settle ⟨false, none, ""⟩ 5 "paid in cash")).settled_at
            = (⟨false, none, ""⟩ : SplitState).settled_at)) :=
  ⟨rfl, rfl, C10_settle_roundtrip ⟨false, none, ""⟩ 5 "paid in cash" rfl rfl⟩

/-- Invariant of a payment sequence: starting from a debt whose settled
amount is `min A t` for some accumulated total `t ≥ 0` and whose status
matches the pure-status rule, a sequence of positive payments keeps the
settled amount at `min A (t + sum)`, keeps the status on the rule, and
records exactly the call amounts. -/
theorem apply_payments_spec (A : ℤ) (hA : 0 < A) (ps : List ℤ) :
    ∀ (t : ℤ) (d : Debt), 0 ≤ t →
    d.amount = A → d.settled_amount = min A t →
    d.status = pure_status (min A t) A →
    (∀ p ∈ ps, 0 < p) →
    ((apply_payments d ps).1.amount = A)
    ∧ ((apply_payments d ps).1.settled_amount = min A (t + ps.sum))
    ∧ ((apply_payments d ps).1.status = pure_status (min A (t + ps.sum)) A)
    ∧ ((apply_payments d ps).2 = ps) := by
  induction ps with
  | nil =>
    intro t d ht hdA hds hdst hp
    simp only [apply_payments, List.sum_nil, add_zero]
    exact ⟨hdA, hds, hdst, trivial⟩
  | cons p ps ih =>
    intro t d ht hdA hds hdst hp
    have hp0 : 0 < p := hp p (List.mem_cons_self p ps)
    have hps : ∀ q ∈ ps, 0 < q := fun q hq => hp q (List.mem_cons_of_mem p hq)
    obtain ⟨e2, eA, eset, estat, _⟩ := add_payment_fields d p 0
    have hsum : t + (p :: ps).sum = (t + p) + ps.sum := by
      rw [List.sum_cons]; ring
    have key :
        ((apply_payments (add_payment d p 0).1 ps).1.amount = A)
        ∧ ((apply_payments (add_payment d p 0).1 ps).1.settled_amount
            = min A ((t + p) + ps.sum))
        ∧ ((apply_payments (add_payment d p 0).1 ps).1.status
            = pure_status (min A ((t + p) + ps.sum)) A)
        ∧ ((apply_payments (add_payment d p 0).1 ps).2 = ps) := by
      by_cases hc : d.amount ≤ d.settled_amount + p
      · have hAle : A ≤ t + p := by rw [hdA, hds] at hc; omega
        refine ih (t + p) (add_payment d p 0).1 (by omega) (eA.trans hdA) ?_ ?_ hps
        · rw [eset, if_pos hc, hdA]; omega
        · rw [estat, if_pos hc]
          have : min A (t + p) = A := by omega
          rw [this, pure_status_full A hA]
      · have hlt : t + p < A ∧ t < A := by rw [hdA, hds] at hc; omega
        have hpos : 0 < d.settled_amount + p := by
          rw [hds]; omega
        refine ih (t + p) (add_payment d p 0).1 (by omega) (eA.trans hdA) ?_ ?_ hps
        · rw [eset, if_neg hc, hds]; omega
        · rw [estat, if_neg hc, if_pos hpos]
          have hm : min A (t + p) = t + p := by omega
          rw [hm, pure_status_mid (t + p) A (by omega) hlt.1]
    simp only [apply_payments]
    rw [hsum]
    exact ⟨key.1, key.2.1, key.2.2.1, by rw [e2, key.2.2.2]⟩

/-- C2 counterexample: a debt of 100.00 receiving one accepted payment of
150.00 ends with settled_amount 100.00 while the sum of its DebtPayment
amounts is 150.00 — the two never re-agree, refuting
settled_amount = sum of payments. -/
theorem C2_counterexample :
    ((apply_payments ⟨10000, 0, SettlementStatus.PENDING, none⟩ [15000]).1.settled_amount
        = 10000)
    ∧ ((apply_payments ⟨10000, 0, SettlementStatus.PENDING, none⟩ [15000]).2.sum
        = 15000)
    ∧ ((10000 : ℤ) ≠ 15000) := by
  refine ⟨by decide, by decide, by decide⟩

/-- C2 amended: for every debt of positive amount and every finite sequence
of positive-amount add_payment calls, afterwards settled_amount equals
min(amount, sum of the DebtPayment amounts) — overshoot is clamped, so it
can be strictly below the payment sum — settled_amount never exceeds
amount, and the status equals the pure function of settled_amount vs amount
(0 → PENDING, 0 < x < amount → PARTIALLY_PAID, x = amount → SETTLED). -/
theorem C2_payment_invariants_amended (A : ℤ) (ps : List ℤ) (hA : 0 < A)
    (hp : ∀ p ∈ ps, 0 < p) :
    ((apply_payments ⟨A, 0, SettlementStatus.PENDING, none⟩ ps).2.sum = ps.sum)
    ∧ ((apply_payments ⟨A, 0, SettlementStatus.PENDING, none⟩ ps).1.settled_amount
        = min A ps.sum)
    ∧ ((apply_payments ⟨A, 0, SettlementStatus.PENDING, none⟩ ps).1.settled_amount ≤ A)
    ∧ ((apply_payments ⟨A, 0, SettlementStatus.PENDING, none⟩ ps).1.status
        = pure_status
            ((apply_payments ⟨A, 0, SettlementStatus.PENDING, none⟩ ps).1.settled_amount)
            A) := by
  have h0 : (⟨A, 0, SettlementStatus.PENDING, none⟩ : Debt).settled_amount = min A 0 := by
    show (0 : ℤ) = min A 0
    omega
  have h1 : (⟨A, 0, SettlementStatus.PENDING, none⟩ : Debt).status
      = pure_status (min A 0) A := by
    show SettlementStatus.PENDING = pure_status (min A 0) A
    have : min A 0 = 0 := by omega
    rw [this, pure_status_zero]
  obtain ⟨_, hset, hstat, hrec⟩ :=
    apply_payments_spec A hA ps 0 ⟨A, 0, SettlementStatus.PENDING, none⟩
      le_rfl rfl h0 h1 hp
  rw [zero_add] at hset hstat
  refine ⟨by rw [hrec], hset, by rw [hset]; omega, by rw [hstat, hset]⟩

/-- C2 witness: the amended statement for a debt of 100.00 receiving
payments of 50.00 and 100.00. -/
theorem C2_witness :
    ((0 : ℤ) < 10000)
    ∧ (∀ p ∈ ([5000, 10000] : List ℤ), 0 < p)
    ∧ (((apply_payments ⟨10000, 0, SettlementStatus.PENDING, none⟩ [5000, 10000]).2.sum
          = ([5000, 10000] : List ℤ).sum)
       ∧ ((apply_payments ⟨10000, 0, SettlementStatus.PENDING, none⟩ [5000, 10000]).1.settled_amount
          = min (10000 : ℤ) ([5000, 10000] : List ℤ).sum)
       ∧ ((apply_payments ⟨10000, 0, SettlementStatus.PENDING, none⟩ [5000, 10000]).1.settled_amount
          ≤ 10000)
       ∧ ((apply_payments ⟨10000, 0, SettlementStatus.PENDING, none⟩ [5000, 10000]).1.status
          = pure_status
              ((apply_payments ⟨10000, 0, SettlementStatus.PENDING, none⟩ [5000, 10000]).1.settled_amount)
              10000)) :=
  ⟨by decide, by decide,
   C2_payment_invariants_amended 10000 [5000, 10000] (by decide) (by decide)⟩

/-- One evaluation conserves the 80%-alert potential: the number of
80_PERCENT alerts it emits plus the remaining allowance afterwards equals
the allowance before. -/
theorem check_step_80 (b : Budget) (s : ℤ) :
    alerts_left b.alerted_at_80
      = (check_and_send_alerts b s).2.count AlertType.EIGHTY_PERCENT
        + alerts_left (check_and_send_alerts b s).1.alerted_at_80 := by
  simp only [check_and_send_alerts]
  split_ifs with h1 h2 h2 <;>
    simp_all [alerts_left, List.count_cons, List.count_nil, List.count_append]

/-- One evaluation conserves the 100%-alert potential. -/
theorem check_step_100 (b : Budget) (s : ℤ) :
    alerts_left b.alerted_at_100
      = (check_and_send_alerts b s).2.count AlertType.EXCEEDED
        + alerts_left (check_and_send_alerts b s).1.alerted_at_100 := by
  simp only [check_and_send_alerts]
  split_ifs with h1 h2 h2 <;>
    simp_all [alerts_left, List.count_cons, List.count_nil, List.count_append]

/-- A sequence of evaluations conserves both alert potentials. -/
theorem run_checks_pot (ss : List ℤ) : ∀ b : Budget,
    (alerts_left b.alerted_at_80
      = (run_checks b ss).2.count AlertType.EIGHTY_PERCENT
        + alerts_left (run_checks b ss).1.alerted_at_80)
    ∧ (alerts_left b.alerted_at_100
      = (run_checks b ss).2.count AlertType.EXCEEDED
        + alerts_left (run_checks b ss).1.alerted_at_100) := by
  induction ss with
  | nil => intro b; simp [run_checks]
  | cons s ss ih =>
    intro b
    have h80 := check_step_80 b s
    have h100 := check_step_100 b s
    have hi := ih (check_and_send_alerts b s).1
    simp only [run_checks, List.count_append]
    omega

/-- C5 counterexample: a budget of 500.00 with both thresholds enabled and
no alert yet sent, evaluated when spending is 620.00 (utilization 124%),
emits only the EXCEEDED alert — no 80_PERCENT alert is emitted and
alerted_at_80 stays false, because the 80% branch requires utilization
strictly below 100. -/
theorem C5_counterexample :
    ((check_and_send_alerts
        ⟨50000, true, true, false, false, BudgetStatus.ACTIVE⟩ 62000).2
      = [AlertType.EXCEEDED])
    ∧ ((check_and_send_alerts
        ⟨50000, true, true, false, false, BudgetStatus.ACTIVE⟩ 62000).2.count
          AlertType.EIGHTY_PERCENT = 0)
    ∧ ((check_and_send_alerts
        ⟨50000, true, true, false, false, BudgetStatus.ACTIVE⟩ 62000).1.alerted_at_80
      = false) := by
  have h : check_and_send_alerts
      ⟨50000, true, true, false, false, BudgetStatus.ACTIVE⟩ 62000
      = (⟨50000, true, true, false, true, BudgetStatus.EXCEEDED⟩,
         [AlertType.EXCEEDED]) := by
    norm_num [check_and_send_alerts, utilization_percentage]
  rw [h]
  refine ⟨rfl, by decide, rfl⟩

/-- C5 amended: when utilization jumps to 100% or above in a single
evaluation with both thresholds enabled and neither flag set, only the
EXCEEDED alert is emitted (the 80% branch requires utilization < 100);
alerted_at_100 is set, the status becomes EXCEEDED, and alerted_at_80
remains false. -/
theorem C5_only_exceeded_amended (b : Budget) (spent : ℤ)
    (h80 : b.alert_threshold_80 = true) (h100 : b.alert_threshold_100 = true)
    (hf80 : b.alerted_at_80 = false) (hf100 : b.alerted_at_100 = false)
    (hu : 100 ≤ utilization_percentage b spent) :
    ((check_and_send_alerts b spent).2 = [AlertType.EXCEEDED])
    ∧ ((check_and_send_alerts b spent).1.alerted_at_80 = false)
    ∧ ((check_and_send_alerts b spent).1.alerted_at_100 = true)
    ∧ ((check_and_send_alerts b spent).1.status = BudgetStatus.EXCEEDED) := by
  have hnot : ¬ (utilization_percentage b spent < 100) := not_lt.2 hu
  simp [check_and_send_alerts, h80, h100, hf80, hf100, hu, hnot]

/-- C5 witness: the amended statement at the budget of 500.00 with spending
620.00. -/
theorem C5_witness :
    ((⟨50000, true, true, false, false, BudgetStatus.ACTIVE⟩ : Budget).alert_threshold_80
        = true)
    ∧ ((⟨50000, true, true, false, false, BudgetStatus.ACTIVE⟩ : Budget).alert_threshold_100
        = true)
    ∧ ((⟨50000, true, true, false, false, BudgetStatus.ACTIVE⟩ : Budget).alerted_at_80
        = false)
    ∧ ((⟨50000, true, true, false, false, BudgetStatus.ACTIVE⟩ : Budget).alerted_at_100
        = false)
    ∧ (100 ≤ utilization_percentage
        ⟨50000, true, true, false, false, BudgetStatus.ACTIVE⟩ 62000)
    ∧ (((check_and_send_alerts
          ⟨50000, true, true, false, false, BudgetStatus.ACTIVE⟩ 62000).2
          = [AlertType.EXCEEDED])
       ∧ ((check_and_send_alerts
          ⟨50000, true, true, false, false, BudgetStatus.ACTIVE⟩ 62000).1.alerted_at_80
          = false)
       ∧ ((check_and_send_alerts
          ⟨50000, true, true, false, false, BudgetStatus.ACTIVE⟩ 62000).1.alerted_at_100
          = true)
       ∧ ((check_and_send_alerts
          ⟨50000, true, true, false, false, BudgetStatus.ACTIVE⟩ 62000).1.status
          = BudgetStatus.EXCEEDED)) :=
  ⟨rfl, rfl, rfl, rfl, by norm_num [utilization_percentage],
   C5_only_exceeded_amended ⟨50000, true, true, false, false, BudgetStatus.ACTIVE⟩
     62000 rfl rfl rfl rfl (by norm_num [utilization_percentage])⟩

/-- C6 confirmed: over any sequence of evaluations with no intervening
reset, each threshold emits at most one alert — and none at all if its
alerted flag was already set (the flag allowance bounds the emitted count);
the alerted flags are monotone, and reset_alerts is what clears them. -/
theorem C6_alert_once_monotonic (b : Budget) (ss : List ℤ) :
    ((run_checks b ss).2.count AlertType.EIGHTY_PERCENT
        ≤ alerts_left b.alerted_at_80)
    ∧ ((run_checks b ss).2.count AlertType.EXCEEDED
        ≤ alerts_left b.alerted_at_100)
    ∧ ((run_checks b ss).2.count AlertType.EIGHTY_PERCENT ≤ 1)
    ∧ ((run_checks b ss).2.count AlertType.EXCEEDED ≤ 1)
    ∧ (b.alerted_at_80 ≤ (run_checks b ss).1.alerted_at_80)
    ∧ (b.alerted_at_100 ≤ (run_checks b ss).1.alerted_at_100)
    ∧ ((reset_alerts (run_checks b ss).1).alerted_at_80 = false)
    ∧ ((reset_alerts (run_checks b ss).1).alerted_at_100 = false) := by
  obtain ⟨h80, h100⟩ := run_checks_pot ss b
  have hb80 : alerts_left b.alerted_at_80 ≤ 1 := by
    unfold alerts_left; split_ifs <;> omega
  have hb100 : alerts_left b.alerted_at_100 ≤ 1 := by
    unfold alerts_left; split_ifs <;> omega
  refine ⟨by omega, by omega, by omega, by omega, ?_, ?_, rfl, rfl⟩
  · cases hx : b.alerted_at_80 with
    | false => exact Bool.false_le _
    | true =>
      rw [hx] at h80
      simp only [alerts_left, if_pos rfl] at h80
      cases hy : (run_checks b ss).1.alerted_at_80 with
      | true => exact le_refl _
      | false => rw [hy] at h80; simp [alerts_left] at h80
  · cases hx : b.alerted_at_100 with
    | false => exact Bool.false_le _
    | true =>
      rw [hx] at h100
      simp only [alerts_left, if_pos rfl] at h100
      cases hy : (run_checks b ss).1.alerted_at_100 with
      | true => exact le_refl _
      | false => rw [hy] at h100; simp [alerts_left] at h100

theorem derive_debts_nil (payer : ℕ) (acc : List DebtRow) :
    derive_debts payer acc [] = acc := rfl

theorem derive_debts_cons (payer : ℕ) (acc : List DebtRow) (sp : SplitRec)
    (ss : List SplitRec) :
    derive_debts payer acc (sp :: ss)
      = derive_debts payer (create_debt_on_split payer acc true sp) ss := rfl

/-- The signal skips a split that is settled at creation time. -/
theorem cds_settled (payer : ℕ) (acc : List DebtRow) (sp : SplitRec)
    (h : sp.is_settled = true) :
    create_debt_on_split payer acc true sp = acc := by
  simp [create_debt_on_split, h]

/-- The signal skips the split of the payer. -/
theorem cds_payer (payer : ℕ) (acc : List DebtRow) (sp : SplitRec)
    (h : sp.user = payer) :
    create_debt_on_split payer acc true sp = acc := by
  simp [create_debt_on_split, h]

/-- When no debt with the lookup triple exists, the signal appends one. -/
theorem cds_new (payer : ℕ) (acc : List DebtRow) (sp : SplitRec)
    (h1 : sp.is_settled = false) (h2 : sp.user ≠ payer)
    (h3 : acc.any (fun d =>
        d.creditor == payer && d.debtor == sp.user && d.split_id == sp.id) = false) :
    create_debt_on_split payer acc true sp
      = acc ++ [⟨payer, sp.user, sp.id, sp.amount⟩] := by
  simp [create_debt_on_split, h1, h2, h3]

/-- When a debt with the lookup triple exists, the signal changes nothing. -/
theorem cds_exists (payer : ℕ) (acc : List DebtRow) (sp : SplitRec)
    (h1 : sp.is_settled = false) (h2 : sp.user ≠ payer)
    (h3 : acc.any (fun d =>
        d.creditor == payer && d.debtor == sp.user && d.split_id == sp.id) = true) :
    create_debt_on_split payer acc true sp = acc := by
  simp [create_debt_on_split, h1, h2, h3]

/-- Running the signal over split rows with pairwise-distinct ids, starting
from a debt table containing no row for any of those splits, appends
exactly one debt per unsettled split whose user is not the payer. -/
theorem derive_debts_fresh (payer : ℕ) (splits : List SplitRec) :
    ∀ acc : List DebtRow,
    (splits.map SplitRec.id).Nodup →
    (∀ d ∈ acc, ∀ sp ∈ splits, d.split_id ≠ sp.id) →
    derive_debts payer acc splits
      = acc ++ (splits.filter (fun sp => !sp.is_settled && sp.user != payer)).map
          (fun sp => ⟨payer, sp.user, sp.id, sp.amount⟩) := by
  induction splits with
  | nil => intro acc _ _; simp [derive_debts_nil]
  | cons sp ss ih =>
    intro acc hnd hacc
    have hnd0 : sp.id ∉ ss.map SplitRec.id ∧ (ss.map SplitRec.id).Nodup := by
      rw [List.map_cons, List.nodup_cons] at hnd
      exact hnd
    rw [derive_debts_cons]
    by_cases hs : sp.is_settled = true
    · rw [cds_settled payer acc sp hs,
        ih acc hnd0.2 (fun d hd q hq => hacc d hd q (List.mem_cons_of_mem sp hq))]
      simp [List.filter_cons, hs]
    · have hs2 : sp.is_settled = false := by
        cases hb : sp.is_settled
        · rfl
        · exact absurd hb hs
      by_cases hu : sp.user = payer
      · rw [cds_payer payer acc sp hu,
          ih acc hnd0.2 (fun d hd q hq => hacc d hd q (List.mem_cons_of_mem sp hq))]
        simp [List.filter_cons, hu]
      · have hany : acc.any (fun d =>
            d.creditor == payer && d.debtor == sp.user && d.split_id == sp.id)
              = false := by
          rw [List.any_eq_false]
          intro d hd
          have hne := hacc d hd sp (List.mem_cons_self sp ss)
          simp [hne]
        rw [cds_new payer acc sp hs2 hu hany]
        have hacc2 : ∀ d ∈ acc ++ [(⟨payer, sp.user, sp.id, sp.amount⟩ : DebtRow)],
            ∀ q ∈ ss, d.split_id ≠ q.id := by
          intro d hd q hq
          rcases List.mem_append.1 hd with hmem | hmem
          · exact hacc d hmem q (List.mem_cons_of_mem sp hq)
          · have hd2 : d = ⟨payer, sp.user, sp.id, sp.amount⟩ := by
              simpa using hmem
            subst hd2
            intro heq
            apply hnd0.1
            have heq2 : sp.id = q.id := heq
            rw [heq2]
            exact List.mem_map_of_mem SplitRec.id hq
        rw [ih (acc ++ [(⟨payer, sp.user, sp.id, sp.amount⟩ : DebtRow)]) hnd0.2 hacc2]
        simp only [List.filter_cons, hs2, hu]
        simp [List.append_assoc, hu]

/-- Running the signal when every qualifying split already has a debt with
its lookup triple changes nothing. -/
theorem derive_debts_noop (payer : ℕ) (splits : List SplitRec) :
    ∀ acc : List DebtRow,
    (∀ sp ∈ splits, sp.is_settled = false → sp.user ≠ payer →
        acc.any (fun d =>
          d.creditor == payer && d.debtor == sp.user && d.split_id == sp.id) = true) →
    derive_debts payer acc splits = acc := by
  induction splits with
  | nil => intro acc _; rfl
  | cons sp ss ih =>
    intro acc hsat
    rw [derive_debts_cons]
    have hstep : create_debt_on_split payer acc true sp = acc := by
      by_cases hs : sp.is_settled = true
      · exact cds_settled payer acc sp hs
      · have hs2 : sp.is_settled = false := by
          cases hb : sp.is_settled
          · rfl
          · exact absurd hb hs
        by_cases hu : sp.user = payer
        · exact cds_payer payer acc sp hu
        · exact cds_exists payer acc sp hs2 hu
            (hsat sp (List.mem_cons_self sp ss) hs2 hu)
    rw [hstep]
    exact ih acc (fun q hq => hsat q (List.mem_cons_of_mem sp hq))

/-- C7 counterexample: a split that is already settled when created gets no
debt even though its participant (2) differs from the payer (1), so the
derivation does not create one debt per non-payer split. -/
theorem C7_counterexample :
    (derive_debts 1 [] [⟨7, 2, 5000, true⟩] = [])
    ∧ ((2 : ℕ) ≠ 1)
    ∧ (([] : List DebtRow).length ≠ 1) := by
  refine ⟨by decide, by decide, by decide⟩

/-- C7 amended: for split rows with distinct ids, the derivation creates
exactly one Debt (creditor = payer, debtor = participant, amount = split
amount, keyed by the originating split) per split that is unsettled at
creation and whose participant differs from the payer; it never creates a
debt for the payer or for a split already settled at creation, and running
the derivation again over the same splits changes nothing. -/
theorem C7_derive_debts_amended (payer : ℕ) (splits : List SplitRec)
    (hids : (splits.map SplitRec.id).Nodup) :
    (derive_debts payer [] splits
      = (splits.filter (fun sp => !sp.is_settled && sp.user != payer)).map
          (fun sp => ⟨payer, sp.user, sp.id, sp.amount⟩))
    ∧ (∀ d ∈ derive_debts payer [] splits,
        d.creditor = payer ∧ d.debtor ≠ payer)
    ∧ (derive_debts payer (derive_debts payer [] splits) splits
        = derive_debts payer [] splits) := by
  have h1 := derive_debts_fresh payer splits [] hids (by simp)
  rw [List.nil_append] at h1
  refine ⟨h1, ?_, ?_⟩
  · intro d hd
    rw [h1] at hd
    obtain ⟨sp, hsp, hde⟩ := List.mem_map.1 hd
    have hcond := (List.mem_filter.1 hsp).2
    simp only [Bool.and_eq_true, Bool.not_eq_true', bne_iff_ne, ne_eq] at hcond
    rw [← hde]
    exact ⟨rfl, hcond.2⟩
  · apply derive_debts_noop
    intro sp hsp hset hu
    rw [h1, List.any_eq_true]
    refine ⟨⟨payer, sp.user, sp.id, sp.amount⟩, ?_, by simp⟩
    exact List.mem_map.2
      ⟨sp, List.mem_filter.2 ⟨hsp, by simp [hset, hu]⟩, rfl⟩

/-- C7 witness: the amended statement at payer 1 with three splits — the
payer has a split, member 2 has an unsettled split, member 3 has a split
settled at creation. -/
theorem C7_witness :
    ((([⟨7, 1, 4000, false⟩, ⟨8, 2, 3000, false⟩,
        ⟨9, 3, 3000, true⟩] : List SplitRec).map SplitRec.id).Nodup)
    ∧ ((derive_debts 1 []
          [⟨7, 1, 4000, false⟩, ⟨8, 2, 3000, false⟩, ⟨9, 3, 3000, true⟩]
        = (([⟨7, 1, 4000, false⟩, ⟨8, 2, 3000, false⟩,
            ⟨9, 3, 3000, true⟩] : List SplitRec).filter
              (fun sp => !sp.is_settled && sp.user != 1)).map
            (fun sp => ⟨1, sp.user, sp.id, sp.amount⟩))
       ∧ (∀ d ∈ derive_debts 1 []
            [⟨7, 1, 4000, false⟩, ⟨8, 2, 3000, false⟩, ⟨9, 3, 3000, true⟩],
          d.creditor = 1 ∧ d.debtor ≠ 1)
       ∧ (derive_debts 1
            (derive_debts 1 []
              [⟨7, 1, 4000, false⟩, ⟨8, 2, 3000, false⟩, ⟨9, 3, 3000, true⟩])
            [⟨7, 1, 4000, false⟩, ⟨8, 2, 3000, false⟩, ⟨9, 3, 3000, true⟩]
          = derive_debts 1 []
              [⟨7, 1, 4000, false⟩, ⟨8, 2, 3000, false⟩, ⟨9, 3, 3000, true⟩])) :=
  ⟨by decide,
   C7_derive_debts_amended 1
     [⟨7, 1, 4000, false⟩, ⟨8, 2, 3000, false⟩, ⟨9, 3, 3000, true⟩] (by decide)⟩

/-- C9 code bug: the paid aggregate of `get_balance_summary` sums the
keyword `amount`, which is a Python property and not a column of the
SharedExpense table, so the ORM raises FieldError while handling the first
member and the method never returns the paid/owed/balance mapping the
claim (and its own docstring and caller) describe: for every database
state and every non-empty member list the call fails with that FieldError;
only the empty member list returns, with the empty mapping, because the
loop body never runs.  The intended query needed the `expense__amount`
join. -/
theorem C9_field_error (db : DB) (g m : ℕ) (members : List ℕ) :
    (get_balance_summary db g (m :: members)
      = Except.error (ORMError.FieldError ("amount")))
    ∧ (get_balance_summary db g [] = Except.ok [])
    ∧ (get_balance_summary
        ⟨[⟨1, 100, 10, 5, false⟩], [⟨1, 6, 3000⟩]⟩ 10 [5, 6]
      = Except.error (ORMError.FieldError ("amount"))) :=
  ⟨rfl, rfl, rfl⟩

end ExpenseManager
